import Mathlib

/-!
Verification of the VIIRS snow-cover mosaic pipeline
(`src/normal_gen/viirs_mosaic.py`) against its specification.

Python strings are modelled as lists of characters (`Str := List Char`);
the Python string operations the code uses (`str.split` with and without a
separator, `str.replace`, substring membership via `in`, `'.'.join`,
`os.path.join`, `os.path.split`) are embedded as executable Lean
functions.  A Python exception that would propagate out of a function is
modelled by `Option` (`none` = uncaught exception); numeric values are
modelled by `ℚ` (the code only ever moves numeric constants and parsed
decimal literals around, it performs no float arithmetic).  Filesystem
side effects are modelled by explicit write lists / an association list
from path to symbolic raster content.
-/

abbrev Str : Type := List Char

/-- Python substring test `sub in s`. -/
def containsSub (sub : Str) : Str → Bool
  | [] => sub.isEmpty
  | c :: rest => sub.isPrefixOf (c :: rest) || containsSub sub rest

/-- Split a string at every character satisfying `p`, keeping empty pieces
(the behaviour of Python `str.split(sep)` for a one-character `sep`, and
the first phase of no-argument `str.split()`). -/
def splitOnPred (p : Char → Bool) : Str → List Str
  | [] => [[]]
  | c :: rest =>
      if p c then [] :: splitOnPred p rest
      else
        match splitOnPred p rest with
        | [] => [[c]]
        | t :: ts => (c :: t) :: ts

/-- Python `s.split(sep)` for a one-character separator `sep`. -/
def splitOnChar (sep : Char) (s : Str) : List Str :=
  splitOnPred (fun c => c == sep) s

/-- Python `s.split('=(')`: split at every (left-to-right, non-overlapping)
occurrence of the two-character separator `=(` — the separator used at
lines 74-75 of `viirs_mosaic.py`.  Since the two separator characters
differ, left-to-right scanning finds every occurrence. -/
def splitOnEqParen : Str → List Str
  | [] => [[]]
  | [c] => [[c]]
  | c1 :: c2 :: rest =>
      if c1 = '=' ∧ c2 = '(' then
        [] :: splitOnEqParen rest
      else
        match splitOnEqParen (c2 :: rest) with
        | [] => [[c1]]
        | t :: ts => (c1 :: t) :: ts

/-- Python no-argument `str.split()` (also applied to `bytes` at line 57):
split on whitespace and drop the empty pieces. -/
def pySplitWs (s : Str) : List Str :=
  (splitOnPred (fun c => c.isWhitespace) s).filter (fun t => t ≠ [])

/-- Numeric value of a non-empty all-digit string (accumulator form). -/
def digitsValGo : Str → ℕ → Option ℕ
  | [], acc => some acc
  | c :: rest, acc =>
      if c.isDigit then digitsValGo rest (acc * 10 + (c.toNat - 48)) else none

/-- Numeric value of a non-empty all-digit string; `none` on the empty
string or any non-digit character. -/
def digitsVal? (s : Str) : Option ℕ :=
  if s = [] then none else digitsValGo s 0

/-- Unsigned part of Python `float(s)` on plain decimal literals:
`digits`, `digits.digits`, `digits.` or `.digits`.  This models the
fragment of `float` that HDF-EOS `StructMetadata` coordinate literals
use (the code never feeds `float` exponents, `inf`/`nan` or whitespace). -/
def pyFloatMag? (s : Str) : Option ℚ :=
  match splitOnChar '.' s with
  | [ipart] => (digitsVal? ipart).map (fun n => (n : ℚ))
  | [ipart, fpart] =>
      if ipart = [] ∧ fpart = [] then none
      else
        match (if ipart = [] then some 0 else digitsVal? ipart),
              (if fpart = [] then some 0 else digitsVal? fpart) with
        | some ni, some nf => some ((ni : ℚ) + (nf : ℚ) / (10 : ℚ) ^ fpart.length)
        | _, _ => none
  | _ => none

/-- Python `float(s)` on plain decimal literals with an optional sign;
`none` models the `ValueError` that `float` raises on malformed input. -/
def pyFloat? : Str → Option ℚ
  | '-' :: body => (pyFloatMag? body).map (fun q => -q)
  | '+' :: body => pyFloatMag? body
  | s => pyFloatMag? s

/-- Python `'.'.join ps` (line 41: rebuild a file name without its last
extension). -/
def dotJoin (ps : List Str) : Str :=
  List.intercalate ['.'] ps

/-- Lines 41 and 227: `".".join(fname.split('.')[:-1])` — a file name
without its last `.`-separated extension. -/
def dropExt (fname : Str) : Str :=
  dotJoin (splitOnChar '.' fname).dropLast

/-- `os.path.split(p)[-1]`: the part of a path after its last slash. -/
def lastComponent (p : Str) : Str :=
  (splitOnChar '/' p).getLastD []

/-- `os.path.join` for the relative-path components the code uses. -/
def pathJoin (ps : List Str) : Str :=
  List.intercalate ['/'] ps

/-! ## HDF5 granule model

`build_viirs_tif` (lines 26-93) consumes from an opened HDF5 granule:
the decoded `StructMetadata.0` text blob, the names under
`HDFEOS/GRIDS`, and the objects found by `f.visit`, where a dataset
object carries an optional `_FillValue` attribute (first element of the
attribute array; `none` models an absent or unreadable attribute, which
the code turns into an exception caught by the bare `except` at line 70)
and a 2-D integer array. -/

structure H5Obj where
  name : Str
  isDataObj : Bool
  fillAttr : Option ℚ
  data : List (List ℤ)
deriving DecidableEq

structure H5File where
  structMetadata : Str
  grids : List Str
  objs : List H5Obj
deriving DecidableEq

def markerCGF : Str := "CGF_NDSI_Snow_Cover".toList

def markerULC : Str := "UpperLeftPointMtrs".toList

def markerLRC : Str := "LowerRightMtrs".toList

/-- Line 65: `[obj for grid in grids for obj in h5_objs if
isinstance(f[obj], h5py.Dataset) and grid in obj]`. -/
def all_datasets (f : H5File) : List H5Obj :=
  f.grids.flatMap (fun grid =>
    f.objs.filter (fun o => o.isDataObj && containsSub grid o.name))

/-- Line 67: `f[[a for a in all_datasets if 'CGF_NDSI_Snow_Cover' in a][0]]`
— `none` models the `IndexError` when no dataset matches. -/
def selectSnow (f : H5File) : Option H5Obj :=
  ((all_datasets f).filter (fun a => containsSub markerCGF a.name)).head?

/-- Lines 74-75: parse the corner pair out of the matched metadata token:
`tok.split('=(')[-1].replace(')', '').split(',')[i]` fed to `float`, for
`i = 0` (longitude) then `i = 1` (latitude). -/
def parseULCpair (ulc : Str) : Option (ℚ × ℚ) := do
  let base := ((splitOnEqParen ulc).getLastD []).filter (fun c => c ≠ ')')
  let lonS ← (splitOnChar ',' base).get? 0
  let lon ← pyFloat? lonS
  let latS ← (splitOnChar ',' base).get? 1
  let lat ← pyFloat? latS
  pure (lon, lat)

/-- Lines 73-75: select the first whitespace token containing
`UpperLeftPointMtrs` (`[0]` on the comprehension — `none` models the
`IndexError` when there is none) and parse the parenthesized pair. -/
def extract_ulc (fileMetadata : List Str) : Option (ℚ × ℚ) := do
  let ulc ← (fileMetadata.filter (fun i => containsSub markerULC i)).head?
  parseULCpair ulc

/-- The Metadata Extractor end to end: tokenize the raw metadata blob
(line 57) and recover the upper-left corner (lines 73-75). -/
def metadataULC (blob : Str) : Option (ℚ × ℚ) :=
  extract_ulc (pySplitWs blob)

/-- Lines 44-54: the fixed sinusoidal projection string (Python implicit
line continuations keep the 8-space indentation of each continued line
inside the literal). -/
def prj : String :=
  "PROJCS[\"unnamed\",        GEOGCS[\"Unknown datum based upon the custom spheroid\",         DATUM[\"Not specified (based on custom spheroid)\",         SPHEROID[\"Custom spheroid\",6371007.181,0]],         PRIMEM[\"Greenwich\",0],        UNIT[\"degree\",0.0174532925199433]],        PROJECTION[\"Sinusoidal\"],         PARAMETER[\"longitude_of_center\",0],         PARAMETER[\"false_easting\",0],         PARAMETER[\"false_northing\",0],         UNIT[\"Meter\",1]]"

/-- Everything `build_viirs_tif` hands to GDAL for the single output
raster: destination path (line 42), array shape (line 82), band data
(line 88), no-data value (line 90), geotransform (line 91) and
projection (line 92). -/
structure TifOutput where
  dest : Str
  nRow : ℕ
  nCol : ℕ
  band : List (List ℤ)
  nodata : ℚ
  geotransform : ℚ × ℚ × ℚ × ℚ × ℚ × ℚ
  projection : String
deriving DecidableEq

/-- Lines 26-93, `build_viirs_tif(date, scene)`: convert one HDF5 granule
into a native-projection GTiff.  `fd` is the result of
`h5py.File(scene, 'r')` (`none` = unreadable file).  The steps appear in
source order; every `←` is a point where the Python code can raise.  The
`_FillValue` lookup (lines 68-71) is the one guarded step: a bare
`except` turns a missing/unreadable attribute into the default `255`. -/
def build_viirs_tif (date : Str) (scene : Str) (fd : Option H5File) :
    Option TifOutput := do
  let f ← fd
  let name := dropExt (lastComponent scene)
  let dest := pathJoin ["data/intermediate_tif/viirs".toList, date,
    name ++ ".tif".toList]
  let fileMetadata := pySplitWs f.structMetadata
  let snow ← selectSnow f
  let fillValue : ℚ := match snow.fillAttr with
    | some v => v
    | none => 255
  let snowArr := snow.data
  let ulcPair ← extract_ulc fileMetadata
  let _lrc ← (fileMetadata.filter (fun i => containsSub markerLRC i)).head?
  let yRes : ℚ := -375
  let xRes : ℚ := 375
  let geoInfo := (ulcPair.1, xRes, (0 : ℚ), ulcPair.2, (0 : ℚ), yRes)
  let nRow := snowArr.length
  let nCol := (snowArr.headD []).length
  pure { dest := dest, nRow := nRow, nCol := nCol, band := snowArr,
         nodata := fillValue, geotransform := geoInfo, projection := prj }

/-- File-creation effect of `build_viirs_tif`: `driver.Create(dest, ...)`
at line 86 runs only after every fallible read/parse step of lines 56-77
has succeeded, so a failing conversion creates no file. -/
def build_viirs_writes (date : Str) (scene : Str) (fd : Option H5File) :
    List Str :=
  match build_viirs_tif date scene fd with
  | some t => [t.dest]
  | none => []

/-- Lines 176-179, `distribute(func, args)`: `Pool(6).starmap` applies
`func` to every argument tuple; an uncaught exception in any unit is
re-raised by `starmap`, aborting the whole batch (`none`).  The pool
size only bounds parallelism and does not affect this value model. -/
def distribute {α β : Type} (func : α → Option β) (args : List α) :
    Option (List β) :=
  match args with
  | [] => some []
  | a :: rest => do
      let b ← func a
      let bs ← distribute func rest
      pure (b :: bs)

/-- Lines 216-220: the Convert stage of `process_viirs` — fan
`build_viirs_tif` out over the `(date, granule)` batch via `distribute`;
no element of the orchestrator catches a failure. -/
def convert_stage (date : Str) (batch : List (Str × Option H5File)) :
    Option (List TifOutput) :=
  distribute (fun g => build_viirs_tif date g.1 g.2) batch

/-! ## Raster stages: reprojection, mosaic, pipeline

Raster contents are represented symbolically: the external library
computations (band resampling, merge) are out of scope, so a written
raster is identified by the term describing how it was produced.  Two
rasters with different production terms are treated as different
values — in particular a merge over a different source list is a
different mosaic. -/

inductive TifContent where
  | native : Str → TifContent
  | reproj : TifContent → TifContent
  | mosaic : List TifContent → List ℚ → ℚ → TifContent

/-- Line 120 (and line 161): the fixed output resolution in degrees per
pixel, `0.006659501656959246`. -/
def resFixed : ℚ := 0.006659501656959246

/-- Line 160: the fixed mosaic clip box
`[-140.977, 46.559, -112.3242, 63.134]` (west, south, east, north). -/
def mosaicBounds : List ℚ := [-140.977, 46.559, -112.3242, 63.134]

/-- The source raster attributes `reproject_viirs` reads (lines 112-122):
CRS, dimensions, bounds, metadata; `pixRes` is the source raster's own
pixel resolution, carried only to express that the code never consults
it. -/
structure SrcRaster where
  crs : Str
  width : ℕ
  height : ℕ
  bounds : ℚ × ℚ × ℚ × ℚ
  pixRes : ℚ × ℚ
  content : TifContent

/-- The arguments `reproject_viirs` passes to
`calculate_default_transform` (lines 113-121). -/
structure CalcTransformArgs where
  srcCrs : Str
  dstCrs : Str
  width : ℕ
  height : ℕ
  bounds : ℚ × ℚ × ℚ × ℚ
  resolution : ℚ

/-- Observable behaviour of one `reproject_viirs` call. -/
structure ReprojResult where
  calcArgs : CalcTransformArgs
  writes : List (Str × TifContent)

/-- Lines 95-140, `reproject_viirs(date, name, src, dst_crs)`: compute
the destination grid at the fixed resolution and write the reprojected
raster to `data/intermediate_tif/viirs/<date>/<name>_out.tif` (line
111).  The source is opened `'r'` and never written: the single write
is the output file. -/
def reproject_viirs (date : Str) (name : Str) (src : SrcRaster)
    (dst_crs : Str) : ReprojResult :=
  let intermediate_tif := pathJoin ["data/intermediate_tif/viirs".toList,
    date, name ++ "_out.tif".toList]
  { calcArgs := { srcCrs := src.crs, dstCrs := dst_crs, width := src.width,
                  height := src.height, bounds := src.bounds,
                  resolution := resFixed },
    writes := [(intermediate_tif, TifContent.reproj src.content)] }

/-- One `merge(...)` invocation (lines 158-162): source rasters in glob
order, the fixed clip bounds and the fixed resolution. -/
structure MergeCall where
  sources : List TifContent
  bounds : List ℚ
  res : ℚ

/-- Observable behaviour of one `create_viirs_mosaic` call: directories
created (line 148), merges performed, files written. -/
structure MosaicResult where
  madeDirs : List Str
  mergeCalls : List MergeCall
  writes : List (Str × TifContent)

/-- Line 145: the intermediate mosaic destination
`data/intermediate_tif/viirs/<date>/final.tif`. -/
def mosaic_int_pth (date : Str) : Str :=
  pathJoin ["data".toList, "intermediate_tif".toList, "viirs".toList,
    date, "final.tif".toList]

/-- Line 146: the archive directory
`/home/jovyan/geoanalytics_user_shared_data/modis-terra/mosaics/viirs/<year>`. -/
def mosaic_out_pth (year : Str) : Str :=
  pathJoin ["/home/jovyan/geoanalytics_user_shared_data".toList,
    "modis-terra".toList, "mosaics".toList, "viirs".toList, year]

/-- Line 174: the computed (and never used) archive destination
`os.path.join(out_pth, f'{date}.tif')`. -/
def mosaic_fin_pth (pth : Str) : Str :=
  pathJoin [mosaic_out_pth ((splitOnChar '.' (lastComponent pth)).headD []),
    lastComponent pth ++ ".tif".toList]

/-- A directory listing entry: full path and symbolic content. -/
abbrev FileSys : Type := List (Str × TifContent)

/-- `glob(os.path.join(dir, '*<pat>'))`: the files of `fs` directly in
`dir` whose names end with `pat`, in listing order (Python `glob` does
not sort; the model keeps insertion order). -/
def globSuffix (dir : Str) (pat : Str) (fs : FileSys) : FileSys :=
  fs.filter (fun e =>
    (dir ++ ['/']).isPrefixOf e.1
      && !((e.1.drop (dir.length + 1)).contains '/')
      && pat.isSuffixOf e.1)

/-- Lines 142-174, `create_viirs_mosaic(pth)`: glob the reprojected
rasters `*_out.tif` under `pth`; if there is at least one, merge them
with the fixed bounds and resolution and write the result to the
intermediate path; otherwise do nothing.  The function is total — the
only guarded operation, `os.makedirs(out_pth)` (lines 147-150), has its
exception swallowed, and no other statement can raise on the modelled
inputs — so an empty date returns normally. -/
def create_viirs_mosaic (pth : Str) (fs : FileSys) : MosaicResult :=
  let date := lastComponent pth
  let year := (splitOnChar '.' date).headD []
  let int_pth := mosaic_int_pth date
  let out_pth := mosaic_out_pth year
  let src_files_to_mosaic := globSuffix pth "_out.tif".toList fs
  if src_files_to_mosaic.length ≠ 0 then
    { madeDirs := [out_pth],
      mergeCalls := [{ sources := src_files_to_mosaic.map Prod.snd,
                       bounds := mosaicBounds, res := resFixed }],
      writes := [(int_pth,
        TifContent.mosaic (src_files_to_mosaic.map Prod.snd)
          mosaicBounds resFixed)] }
  else
    { madeDirs := [out_pth], mergeCalls := [], writes := [] }

/-! ## Effect-level pipeline model (for the rerun claim)

`process_viirs` (lines 189-232) with every per-granule unit succeeding:
each stage's filesystem effects, with stage inputs re-discovered by
globbing exactly as the code does.  Contents are the symbolic
`TifContent` terms. -/

/-- Overwrite-or-append a file, as GDAL/rasterio `'w'` creation does. -/
def fsWrite (fs : FileSys) (p : Str) (c : TifContent) : FileSys :=
  if fs.any (fun e => e.1 == p) then
    fs.map (fun e => if e.1 == p then (p, c) else e)
  else
    fs ++ [(p, c)]

/-- Content of the file at `p`, if present. -/
def lookupFile (fs : FileSys) (p : Str) : Option TifContent :=
  (fs.find? (fun e => e.1 == p)).map Prod.snd

/-- Line 209: `os.path.join('data', 'intermediate_tif', 'viirs', date)`. -/
def intermediate_pth (date : Str) : Str :=
  pathJoin ["data".toList, "intermediate_tif".toList, "viirs".toList, date]

/-- Line 214: the source path of a granule file for the date. -/
def granulePath (date : Str) (g : Str) : Str :=
  pathJoin ["/home/jovyan/geoanalytics_user_shared_data".toList,
    "modis-terra".toList, "VNP10A1F.001".toList, date, g]

/-- Filesystem effect of one successful `build_viirs_tif(date, scene)`
unit: one native raster written at the line-42 destination. -/
def convertStep (date : Str) (fs : FileSys) (scene : Str) : FileSys :=
  fsWrite fs
    (pathJoin ["data/intermediate_tif/viirs".toList, date,
      dropExt (lastComponent scene) ++ ".tif".toList])
    (TifContent.native scene)

/-- Filesystem effect of one successful `reproject_viirs` unit on the
intermediate raster at `tifPath` (name computed as at line 227; output
path and content as in `reproject_viirs`, line 111/130). -/
def reprojStep (date : Str) (fs : FileSys) (tifPath : Str) : FileSys :=
  match lookupFile fs tifPath with
  | some c =>
      fsWrite fs
        (pathJoin ["data/intermediate_tif/viirs".toList, date,
          dropExt (lastComponent tifPath) ++ "_out.tif".toList])
        (TifContent.reproj c)
  | none => fs

/-- Lines 206-232 of `process_viirs(date)` as a filesystem transformer:
Convert every granule; re-glob `*.tif` under the intermediate directory
(line 223) — the enumeration is a snapshot taken before the Reproject
stage runs; Reproject each enumerated raster; run
`create_viirs_mosaic` on the directory and apply its writes. -/
def process_viirs_fs (date : Str) (granules : List Str) (fs0 : FileSys) :
    FileSys :=
  let fs1 := granules.foldl
    (fun fs g => convertStep date fs (granulePath date g)) fs0
  let intermediate_tifs :=
    (globSuffix (intermediate_pth date) ".tif".toList fs1).map Prod.fst
  let fs2 := intermediate_tifs.foldl (reprojStep date) fs1
  let mos := create_viirs_mosaic (intermediate_pth date) fs2
  mos.writes.foldl (fun fs w => fsWrite fs w.1 w.2) fs2

/-- The day's final mosaic: content of
`data/intermediate_tif/viirs/<date>/final.tif`. -/
def finalTifContent (date : Str) (fs : FileSys) : Option TifContent :=
  lookupFile fs (mosaic_int_pth date)

/-- Number of merge sources of a mosaic raster (observer used to
separate two mosaic contents). -/
def mosaicSrcCount : Option TifContent → ℕ
  | some (TifContent.mosaic srcs _ _) => srcs.length
  | _ => 0

/-! ## Helper lemmas -/

lemma isPrefixOf_append_self {α : Type} [BEq α] [LawfulBEq α]
    (l r : List α) : l.isPrefixOf (l ++ r) = true := by
  induction l with
  | nil => simp
  | cons a as ih => simp [List.isPrefixOf, ih]

lemma containsSub_self_append (sub rest : Str) (h : sub ≠ []) :
    containsSub sub (sub ++ rest) = true := by
  cases sub with
  | nil => exact absurd rfl h
  | cons c cs =>
    show containsSub (c :: cs) (c :: (cs ++ rest)) = true
    have : (c :: cs).isPrefixOf (c :: (cs ++ rest)) = true :=
      isPrefixOf_append_self (c :: cs) rest
    simp [containsSub, this]

lemma filter_head?_of_unique {α : Type} (P : α → Bool) (l : List α) (a : α)
    (ha : a ∈ l) (hP : P a = true) (hu : ∀ b ∈ l, P b = true → b = a) :
    (l.filter P).head? = some a := by
  induction l with
  | nil => cases ha
  | cons x xs ih =>
    by_cases hx : P x = true
    · have hxa : x = a := hu x (List.mem_cons_self x xs) hx
      subst hxa
      simp [List.filter_cons, hx]
    · have hax : a ∈ xs := by
        rcases List.mem_cons.mp ha with h1 | h1
        · subst h1; exact absurd hP hx
        · exact h1
      have hxf : P x = false := by
        cases hPx : P x with
        | true => exact absurd hPx hx
        | false => rfl
      rw [List.filter_cons, if_neg (by simp [hxf])]
      exact ih hax (fun b hb => hu b (List.mem_cons_of_mem x hb))

lemma splitOnPred_no_sep (p : Char → Bool) (s : Str)
    (h : ∀ c ∈ s, p c = false) : splitOnPred p s = [s] := by
  induction s with
  | nil => rfl
  | cons c rest ih =>
    have hc : p c = false := h c (List.mem_cons_self c rest)
    have hr : splitOnPred p rest = [rest] :=
      ih (fun d hd => h d (List.mem_cons_of_mem c hd))
    simp [splitOnPred, hc, hr]

lemma splitOnPred_append_sep (p : Char → Bool) (a : Str) (d : Char) (b : Str)
    (ha : ∀ c ∈ a, p c = false) (hd : p d = true) :
    splitOnPred p (a ++ d :: b) = a :: splitOnPred p b := by
  induction a with
  | nil => simp [splitOnPred, hd]
  | cons c a ih =>
    have hc : p c = false := ha c (List.mem_cons_self c a)
    have hr : splitOnPred p (a ++ d :: b) = a :: splitOnPred p b :=
      ih (fun e he => ha e (List.mem_cons_of_mem c he))
    simp [splitOnPred, hc, hr]

lemma splitOnEqParen_no_sep (s : Str) (h : ∀ c ∈ s, c ≠ '=') :
    splitOnEqParen s = [s] := by
  induction s with
  | nil => rfl
  | cons c rest ih =>
    cases rest with
    | nil => rfl
    | cons c2 r2 =>
      have hc : c ≠ '=' := h c (List.mem_cons_self c (c2 :: r2))
      have cond : ¬(c = '=' ∧ c2 = '(') := fun hcc => hc hcc.1
      have hr : splitOnEqParen (c2 :: r2) = [c2 :: r2] :=
        ih (fun d hd => h d (List.mem_cons_of_mem c hd))
      simp [splitOnEqParen, cond, hr]

lemma splitOnEqParen_append (m r : Str) (hm : ∀ c ∈ m, c ≠ '=') :
    splitOnEqParen (m ++ '=' :: '(' :: r) = m :: splitOnEqParen r := by
  induction m with
  | nil => simp [splitOnEqParen]
  | cons c m ih =>
    have hc : c ≠ '=' := hm c (List.mem_cons_self c m)
    have hr : splitOnEqParen (m ++ '=' :: '(' :: r) = m :: splitOnEqParen r :=
      ih (fun e he => hm e (List.mem_cons_of_mem c he))
    cases m with
    | nil =>
      have cond : ¬(c = '=' ∧ ('=' : Char) = '(') := fun hcc => by
        exact absurd hcc.2 (by decide)
      simp only [List.nil_append] at hr
      simp [splitOnEqParen, cond, hr]
    | cons c2 m2 =>
      have cond : ¬(c = '=' ∧ c2 = '(') := fun hcc => hc hcc.1
      simp only [List.cons_append] at hr
      simp [splitOnEqParen, cond, hr]

lemma distribute_none_of_mem {α β : Type} (func : α → Option β) (l : List α)
    (a : α) (ha : a ∈ l) (hf : func a = none) : distribute func l = none := by
  induction l with
  | nil => cases ha
  | cons x xs ih =>
    rcases List.mem_cons.mp ha with h1 | h1
    · subst h1; simp [distribute, hf]
    · cases hx : func x with
      | none => simp [distribute, hx]
      | some b => simp [distribute, hx, ih h1]

/-- A well-formed corner token `UpperLeftPointMtrs=(sX,sY)` parses to the
values of its two decimal components. -/
lemma parseULCpair_token (sX sY : Str) (X Y : ℚ)
    (hX : ∀ c ∈ sX, c ≠ '=' ∧ c ≠ ')' ∧ c ≠ ',')
    (hY : ∀ c ∈ sY, c ≠ '=' ∧ c ≠ ')' ∧ c ≠ ',')
    (hpX : pyFloat? sX = some X) (hpY : pyFloat? sY = some Y) :
    parseULCpair (markerULC ++ '=' :: '(' :: (sX ++ ',' :: (sY ++ [')'])))
      = some (X, Y) := by
  have hinner : splitOnEqParen (sX ++ ',' :: (sY ++ [')']))
      = [sX ++ ',' :: (sY ++ [')'])] := by
    refine splitOnEqParen_no_sep _ (fun c hc => ?_)
    rcases List.mem_append.mp hc with h1 | h1
    · exact (hX c h1).1
    · rcases List.mem_cons.mp h1 with h2 | h2
      · subst h2; decide
      · rcases List.mem_append.mp h2 with h3 | h3
        · exact (hY c h3).1
        · rcases List.mem_singleton.mp h3 with rfl; decide
  have hsplit : splitOnEqParen
        (markerULC ++ '=' :: '(' :: (sX ++ ',' :: (sY ++ [')'])))
      = markerULC :: [sX ++ ',' :: (sY ++ [')'])] := by
    rw [splitOnEqParen_append _ _ (by decide), hinner]
  have hfiltX : sX.filter (fun c => c ≠ ')') = sX :=
    List.filter_eq_self.mpr (fun c hc => by simp [(hX c hc).2.1])
  have hfiltY : sY.filter (fun c => c ≠ ')') = sY :=
    List.filter_eq_self.mpr (fun c hc => by simp [(hY c hc).2.1])
  have hfilt : (sX ++ ',' :: (sY ++ [')'])).filter (fun c => c ≠ ')')
      = sX ++ ',' :: sY := by
    rw [List.filter_append, hfiltX, List.filter_cons_of_pos (by decide),
        List.filter_append, hfiltY, List.filter_cons_of_neg (by decide),
        List.filter_nil, List.append_nil]
  have hcomma : splitOnChar ',' (sX ++ ',' :: sY) = [sX, sY] := by
    rw [splitOnChar, splitOnPred_append_sep _ _ _ _
      (fun c hc => by simp [(hX c hc).2.2]) (by decide)]
    rw [show splitOnPred (fun c => c == ',') sY = [sY] from
      splitOnPred_no_sep _ _ (fun c hc => by simp [(hY c hc).2.2])]
  have hlast : (splitOnEqParen
        (markerULC ++ '=' :: '(' :: (sX ++ ',' :: (sY ++ [')'])))).getLastD []
      = sX ++ ',' :: (sY ++ [')']) := by
    rw [hsplit, List.getLastD_cons, List.getLastD_cons, List.getLastD_nil]
  simp only [parseULCpair, hlast, hfilt, hcomma]
  simp [hpX, hpY]

/-! ## Claim theorems -/

/-- C1: for every metadata blob whose whitespace-delimited tokens include
the (unique, per the marker) token `UpperLeftPointMtrs=(X,Y)`, the
metadata extraction of `build_viirs_tif` (lines 57, 73-75) yields exactly
the pair `(X, Y)`, with the longitude from the first component and the
latitude from the second, regardless of where that token appears among
the other tokens.  The component strings are decimal literals (no
`'='`/`')'`/`','` characters, parsed by `float`). -/
theorem ulc_extraction_exact (blob sX sY : Str) (X Y : ℚ) (tok : Str)
    (htok : tok = markerULC ++ '=' :: '(' :: (sX ++ ',' :: (sY ++ [')'])))
    (hmem : tok ∈ pySplitWs blob)
    (huniq : ∀ t ∈ pySplitWs blob, containsSub markerULC t = true → t = tok)
    (hX : ∀ c ∈ sX, c ≠ '=' ∧ c ≠ ')' ∧ c ≠ ',')
    (hY : ∀ c ∈ sY, c ≠ '=' ∧ c ≠ ')' ∧ c ≠ ',')
    (hpX : pyFloat? sX = some X) (hpY : pyFloat? sY = some Y) :
    metadataULC blob = some (X, Y) := by
  have hP : containsSub markerULC tok = true := by
    rw [htok]; exact containsSub_self_append _ _ (by decide)
  have hhead :
      ((pySplitWs blob).filter (fun i => containsSub markerULC i)).head?
        = some tok :=
    filter_head?_of_unique _ _ _ hmem hP huniq
  unfold metadataULC extract_ulc
  rw [hhead]
  show parseULCpair tok = some (X, Y)
  rw [htok]
  exact parseULCpair_token sX sY X Y hX hY hpX hpY

/-- Witness for C1: a concrete `StructMetadata.0` blob. -/
def c1_blob : Str :=
  "GROUP=GridStructure\n\tUpperLeftPointMtrs=(-3338350.0,6671703.118)\n\tLowerRightMtrs=(-2223901.039,5559752.598)\nEND".toList

theorem ulc_extraction_exact_witness :
    metadataULC c1_blob = some (-3338350, 6671703.118) :=
  ulc_extraction_exact c1_blob "-3338350.0".toList "6671703.118".toList
    (-3338350) 6671703.118 _ rfl (by decide) (by decide) (by decide)
    (by decide)
    (by simp +decide [pyFloat?, pyFloatMag?, splitOnChar, splitOnPred,
          digitsVal?, digitsValGo])
    (by simp +decide [pyFloat?, pyFloatMag?, splitOnChar, splitOnPred,
          digitsVal?, digitsValGo]
        norm_num)

/-- If the granule has no dataset matching `CGF_NDSI_Snow_Cover`, or no
metadata token containing `UpperLeftPointMtrs`, the conversion raises
(evaluates to `none`): the guarded region (lines 68-71) covers only the
fill-value lookup, not these two selections. -/
lemma build_none_of_missing (date scene : Str) (f : H5File)
    (h : (∀ ds ∈ all_datasets f, containsSub markerCGF ds.name = false)
       ∨ (∀ t ∈ pySplitWs f.structMetadata, containsSub markerULC t = false)) :
    build_viirs_tif date scene (some f) = none := by
  cases h with
  | inl h =>
    have hsnow : selectSnow f = none := by
      unfold selectSnow
      rw [List.filter_eq_nil_iff.mpr (fun a ha => by simp [h a ha])]
      rfl
    simp [build_viirs_tif, hsnow]
  | inr h =>
    have hulc : extract_ulc (pySplitWs f.structMetadata) = none := by
      unfold extract_ulc
      rw [List.filter_eq_nil_iff.mpr (fun a ha => by simp [h a ha])]
      rfl
    cases hsnow : selectSnow f with
    | none => simp [build_viirs_tif, hsnow]
    | some ds => simp [build_viirs_tif, hsnow, hulc]

/-- C2: on a successful conversion, the no-data value written at line 90
is the selected dataset's fill-value attribute verbatim when that
attribute is present and readable, and the documented default `255`
when reading it fails or it is absent (lines 68-71). -/
theorem fill_value_resolution (date scene : Str) (f : H5File)
    (t : TifOutput) (ds : H5Obj)
    (hb : build_viirs_tif date scene (some f) = some t)
    (hds : selectSnow f = some ds) :
    (ds.fillAttr = none → t.nodata = 255)
    ∧ (∀ v, ds.fillAttr = some v → t.nodata = v) := by
  cases hulc : extract_ulc (pySplitWs f.structMetadata) with
  | none => simp [build_viirs_tif, hds, hulc] at hb
  | some p =>
    cases hlrc : List.find? (fun i => containsSub markerLRC i)
        (pySplitWs f.structMetadata) with
    | none => simp [build_viirs_tif, hds, hulc, hlrc] at hb
    | some lrc =>
      simp [build_viirs_tif, hds, hulc, hlrc] at hb
      refine ⟨fun hfa => ?_, fun v hfa => ?_⟩
      · rw [← hb]; simp [hfa]
      · rw [← hb]; simp [hfa]

/-- C3: on a successful conversion, the geotransform handed to
`SetGeoTransform` (lines 79-80, 91) is exactly
`(ulcLon, 375, 0, ulcLat, 0, -375)` where `(ulcLon, ulcLat)` is the
parsed upper-left corner: origin at the corner, pixel width `375`,
pixel height `-375` (north-up). -/
theorem geotransform_exact (date scene : Str) (f : H5File) (t : TifOutput)
    (lon lat : ℚ)
    (hb : build_viirs_tif date scene (some f) = some t)
    (hulc : extract_ulc (pySplitWs f.structMetadata) = some (lon, lat)) :
    t.geotransform = (lon, 375, 0, lat, 0, -375) := by
  cases hds : selectSnow f with
  | none => simp [build_viirs_tif, hds] at hb
  | some ds =>
    cases hlrc : List.find? (fun i => containsSub markerLRC i)
        (pySplitWs f.structMetadata) with
    | none => simp [build_viirs_tif, hds, hulc, hlrc] at hb
    | some lrc =>
      simp [build_viirs_tif, hds, hulc, hlrc] at hb
      rw [← hb]

/-- Concrete witness inputs: a well-formed granule (with absent
fill-value attribute, the 2018-vintage case) and the raster it
produces. -/
def wdate : Str := "2021.01.01".toList

def wscene : Str := "g1.h5".toList

def snowObj0 : H5Obj :=
  { name := "HDFEOS/GRIDS/VIIRS_Grid_IMG_2D/Data Fields/CGF_NDSI_Snow_Cover".toList,
    isDataObj := true, fillAttr := none, data := [[1, 2], [3, 4]] }

def gFile : H5File :=
  { structMetadata := "GROUP=GridStructure UpperLeftPointMtrs=(-3338350,6671703) LowerRightMtrs=(-2223901,5559752) END".toList,
    grids := ["VIIRS_Grid_IMG_2D".toList],
    objs := [snowObj0] }

def tifOut0 : TifOutput :=
  { dest := "data/intermediate_tif/viirs/2021.01.01/g1.tif".toList,
    nRow := 2, nCol := 2, band := [[1, 2], [3, 4]], nodata := 255,
    geotransform := (-3338350, 375, 0, 6671703, 0, -375), projection := prj }

set_option maxRecDepth 10000 in
theorem fill_value_resolution_witness :
    build_viirs_tif wdate wscene (some gFile) = some tifOut0
    ∧ snowObj0.fillAttr = none ∧ tifOut0.nodata = 255 :=
  ⟨by decide, rfl,
    (fill_value_resolution wdate wscene gFile tifOut0 snowObj0 (by decide)
      (by decide)).1 rfl⟩

set_option maxRecDepth 10000 in
theorem geotransform_exact_witness :
    tifOut0.geotransform = (-3338350, 375, 0, 6671703, 0, -375) :=
  geotransform_exact wdate wscene gFile tifOut0 (-3338350) 6671703
    (by decide) (by decide)

/-- C8: a granule whose structural metadata contains no token with the
`UpperLeftPointMtrs` marker, or whose datasets contain none matching
`CGF_NDSI_Snow_Cover`, makes its conversion unit raise an uncaught
exception (lines 73 / 67); `distribute` (`Pool.starmap`, lines 176-179)
re-raises it and `process_viirs` has no handler, so the whole
Convert-stage batch aborts. -/
theorem convert_unit_failure_aborts_batch (date : Str)
    (batch : List (Str × Option H5File)) (scene : Str) (f : H5File)
    (hmem : (scene, some f) ∈ batch)
    (hbad : (∀ t ∈ pySplitWs f.structMetadata, containsSub markerULC t = false)
          ∨ (∀ ds ∈ all_datasets f, containsSub markerCGF ds.name = false)) :
    build_viirs_tif date scene (some f) = none
    ∧ convert_stage date batch = none := by
  have hnone : build_viirs_tif date scene (some f) = none :=
    build_none_of_missing date scene f hbad.symm
  exact ⟨hnone, distribute_none_of_mem _ _ _ hmem hnone⟩

/-- Witness for C8: a granule without the `UpperLeftPointMtrs` token. -/
def gBad : H5File :=
  { structMetadata := "GROUP=GridStructure LowerRightMtrs=(-2223901,5559752) END".toList,
    grids := ["VIIRS_Grid_IMG_2D".toList],
    objs := [snowObj0] }

set_option maxRecDepth 10000 in
theorem convert_unit_failure_witness :
    build_viirs_tif wdate "g2.h5".toList (some gBad) = none
    ∧ convert_stage wdate
        [(wscene, some gFile), ("g2.h5".toList, some gBad)] = none :=
  convert_unit_failure_aborts_batch wdate
    [(wscene, some gFile), ("g2.h5".toList, some gBad)]
    "g2.h5".toList gBad (by decide) (Or.inl (by decide))

/-- C10: when the conversion of a granule fails before raster creation —
unreadable HDF5 file, no `CGF_NDSI_Snow_Cover` dataset, or no
`UpperLeftPointMtrs` token — no output file is created at the
destination: every HDF5 read and metadata parse (lines 56-77) precedes
`driver.Create` (line 86), so the call's write list is empty. -/
theorem failed_conversion_creates_no_file (date scene : Str)
    (fd : Option H5File)
    (hfail : fd = none
      ∨ ∃ f, fd = some f
          ∧ ((∀ ds ∈ all_datasets f, containsSub markerCGF ds.name = false)
           ∨ (∀ t ∈ pySplitWs f.structMetadata, containsSub markerULC t = false))) :
    build_viirs_tif date scene fd = none
    ∧ build_viirs_writes date scene fd = [] := by
  have hnone : build_viirs_tif date scene fd = none := by
    rcases hfail with rfl | ⟨f, rfl, h⟩
    · rfl
    · exact build_none_of_missing date scene f h
  refine ⟨hnone, ?_⟩
  unfold build_viirs_writes
  rw [hnone]

theorem failed_conversion_witness :
    build_viirs_tif wdate wscene none = none
    ∧ build_viirs_writes wdate wscene none = [] :=
  failed_conversion_creates_no_file wdate wscene none (Or.inl rfl)

/-- C4: on a date directory with zero `*_out.tif` files,
`create_viirs_mosaic` performs no merge and writes no output file
(lines 151-157 guard the merge with `len(...) != 0`); the function is
total in the model — its only exception-prone statement,
`os.makedirs`, has its exception swallowed (lines 147-150) — so the
call returns normally. -/
theorem empty_mosaic_no_output (pth : Str) (fs : FileSys)
    (h : (globSuffix pth "_out.tif".toList fs).length = 0) :
    (create_viirs_mosaic pth fs).writes = []
    ∧ (create_viirs_mosaic pth fs).mergeCalls = [] := by
  simp only [create_viirs_mosaic]
  rw [if_neg (fun hc => hc h)]
  exact ⟨rfl, rfl⟩

/-- Witness directory listing without reprojected rasters. -/
def mdir : Str := "data/intermediate_tif/viirs/2021.01.01".toList

def mfsEmpty : FileSys := [(mdir ++ "/g1.tif".toList, TifContent.native wscene)]

theorem empty_mosaic_witness :
    (create_viirs_mosaic mdir mfsEmpty).writes = []
    ∧ (create_viirs_mosaic mdir mfsEmpty).mergeCalls = [] :=
  empty_mosaic_no_output mdir mfsEmpty (by decide)

/-- C5: on a date directory with at least one `*_out.tif`, exactly one
raster is written, at `data/intermediate_tif/viirs/<date>/final.tif`,
and it is the merge of the globbed rasters with bounds clipped to
exactly `[-140.977, 46.559, -112.3242, 63.134]` at resolution
`0.006659501656959246` (lines 157-171). -/
theorem mosaic_single_clipped_output (pth : Str) (fs : FileSys)
    (h : (globSuffix pth "_out.tif".toList fs).length ≠ 0) :
    (create_viirs_mosaic pth fs).writes
      = [(mosaic_int_pth (lastComponent pth),
          TifContent.mosaic
            ((globSuffix pth "_out.tif".toList fs).map Prod.snd)
            mosaicBounds resFixed)]
    ∧ (create_viirs_mosaic pth fs).mergeCalls
      = [{ sources := (globSuffix pth "_out.tif".toList fs).map Prod.snd,
           bounds := mosaicBounds, res := resFixed }] := by
  simp only [create_viirs_mosaic]
  rw [if_pos h]
  exact ⟨rfl, rfl⟩

/-- Witness directory listing with one reprojected raster. -/
def mfsOne : FileSys :=
  [(mdir ++ "/g1_out.tif".toList, TifContent.reproj (TifContent.native wscene))]

theorem mosaic_single_clipped_witness :
    (create_viirs_mosaic mdir mfsOne).writes
      = [(mosaic_int_pth (lastComponent mdir),
          TifContent.mosaic
            ((globSuffix mdir "_out.tif".toList mfsOne).map Prod.snd)
            mosaicBounds resFixed)]
    ∧ (create_viirs_mosaic mdir mfsOne).mergeCalls
      = [{ sources := (globSuffix mdir "_out.tif".toList mfsOne).map Prod.snd,
           bounds := mosaicBounds, res := resFixed }] :=
  mosaic_single_clipped_output mdir mfsOne (by decide)

/-- C9: every file write of `create_viirs_mosaic` targets the
intermediate path `data/intermediate_tif/viirs/<date>/final.tif`; the
computed archive destination `fin_pth` (line 174) is never written —
only the archive directory is created (lines 147-150). -/
theorem mosaic_archive_never_written (pth : Str) (fs : FileSys) :
    (∀ q ∈ (create_viirs_mosaic pth fs).writes.map Prod.fst,
        q = mosaic_int_pth (lastComponent pth))
    ∧ mosaic_fin_pth pth ∉ (create_viirs_mosaic pth fs).writes.map Prod.fst := by
  have h2 : (mosaic_int_pth (lastComponent pth)).head? = some 'd' := rfl
  have hne : mosaic_fin_pth pth ≠ mosaic_int_pth (lastComponent pth) := by
    intro hEq
    have h1 : (mosaic_fin_pth pth).head? = some '/' := rfl
    rw [hEq, h2] at h1
    exact absurd h1 (by decide)
  simp only [create_viirs_mosaic]
  by_cases hc : (globSuffix pth "_out.tif".toList fs).length ≠ 0
  · rw [if_pos hc]
    constructor
    · intro q hq
      simp only [List.map_cons, List.map_nil, List.mem_singleton] at hq
      exact hq
    · intro hmem
      simp only [List.map_cons, List.map_nil, List.mem_singleton] at hmem
      exact hne hmem
  · rw [if_neg hc]
    constructor
    · intro q hq
      simp only [List.map_nil, List.not_mem_nil] at hq
    · intro hmem
      simp only [List.map_nil, List.not_mem_nil] at hmem

theorem mosaic_archive_witness :
    mosaic_int_pth (lastComponent mdir) = mosaic_int_pth (lastComponent mdir) :=
  (mosaic_archive_never_written mdir mfsOne).1
    (mosaic_int_pth (lastComponent mdir)) (by decide)

/-- C6: `reproject_viirs` passes the fixed resolution
`0.006659501656959246` to `calculate_default_transform` (line 120) for
every input raster — independent of the source's own resolution (the
`pixRes` field of the model, which the function never consults) — and
its single write is the output raster at
`data/intermediate_tif/viirs/<date>/<name>_out.tif` (line 111): the
source raster, opened read-only, is not written. -/
theorem reproject_fixed_resolution (date name : Str) (src : SrcRaster)
    (dst_crs : Str) :
    (reproject_viirs date name src dst_crs).calcArgs.resolution = resFixed
    ∧ (reproject_viirs date name src dst_crs).writes
      = [(pathJoin ["data/intermediate_tif/viirs".toList, date,
            name ++ "_out.tif".toList],
          TifContent.reproj src.content)] :=
  ⟨rfl, rfl⟩

/-- Failing input for the rerun claim: one granule, one date, initially
empty intermediate directory. -/
def c7_granules : List Str := ["g1.h5".toList]

def c7_run1 : FileSys := process_viirs_fs wdate c7_granules []

def c7_run2 : FileSys := process_viirs_fs wdate c7_granules c7_run1

set_option maxRecDepth 100000 in
/-- C7 (refuted — code bug): rerunning the pipeline on the same date is
NOT idempotent.  The second run's reproject enumeration
(`glob('*.tif')`, line 223) also matches the first run's outputs
`g1_out.tif` and `final.tif`, so the second run additionally writes
`g1_out_out.tif` and `final_out.tif`, and the second mosaic merges
three sources where the first merged one: the two final rasters are
merges of different source lists. -/
theorem rerun_not_idempotent :
    mosaicSrcCount (finalTifContent wdate c7_run1) = 1
    ∧ mosaicSrcCount (finalTifContent wdate c7_run2) = 3
    ∧ finalTifContent wdate c7_run2 ≠ finalTifContent wdate c7_run1 :=
  ⟨by decide, by decide,
    fun h => absurd (congrArg mosaicSrcCount h) (by decide)⟩
